import Mathlib

/-!
Shallow embedding of `op::DatumProducer`
(`src/base/include/openpose/producer/datumProducer.hpp`) and proofs about it.

The producer pulls one batch of synchronized view images per call from an
abstract frame source, normalizes the primary view to 3 channels, tracks a
consecutive-empty-frame stall counter, consumes a one-shot seek request, and
counts successfully delivered batches against a configured frame range.

Machine integers are modelled as `Nat`/`Int` with explicit `% 2 ^ w` at the
points where C++ unsigned wrap-around can occur.  The external collaborators
(`op::Producer`, `op::error`, `op::log`, OpenCV images) are not under `src/`;
they are modelled from the spec's interface contract, as noted on each
definition.
-/

namespace DatumProducerModel

/-- `std::numeric_limits<unsigned long long>::max()`, the unbounded-range
sentinel used for `frameLast` / `mNumberFramesToProcess`. -/
def ULLMAX : Nat := 2 ^ 64 - 1

/-- Modelled from the spec: an OpenCV image buffer (`cv::Mat`), reduced to the
observations the producer makes of it: its channel count, whether it is empty,
and an abstract content tag. -/
structure Image where
  channels : Nat
  isEmpty : Bool
  data : Nat
deriving Repr, DecidableEq

/-- A default-constructed `cv::Mat`: empty, one channel by flag. -/
def emptyMat : Image := { channels := 1, isEmpty := true, data := 0 }

/-- Modelled from the spec: `cv::cvtColor(src, dst, CV_GRAY2BGR)` — channel
replication of a single-channel image into 3 channels, content preserved. -/
def cvtColorGray2BGR (img : Image) : Image :=
  { channels := 3, isEmpty := img.isEmpty, data := img.data }

/-- Calibration matrices are opaque to the producer; a `Nat` tag models one
`cv::Mat`, `0` being the default-constructed (empty) matrix. -/
abbrev CalMat := Nat

/-- One view's record (`op::Datum`), restricted to the fields this producer
writes.  Field defaults are the C++ default-constructed values produced by
`datums->resize`. -/
structure Datum where
  name : String := ""
  frameNumber : Int := 0
  cvInputData : Image := emptyMat
  cvOutputData : Image := emptyMat
  cameraMatrix : CalMat := 0
  cameraExtrinsics : CalMat := 0
  cameraIntrinsics : CalMat := 0
deriving Repr, DecidableEq

/-- The default-constructed `Datum`. -/
def datumDefault : Datum := {}

/-- The shared seek channel `std::pair<std::atomic<bool>, std::atomic<int>>`:
`first` is the fake-pause flag, `second` the one-shot frame increment. -/
structure SeekState where
  paused : Bool
  increment : Int
deriving Repr, DecidableEq

/-- Modelled from the spec: the observable state of the abstract frame source
(`op::Producer`): whether it reports open, and its positional cursor
(`CV_CAP_PROP_POS_FRAMES`).  `release()` closes it and a closed source stays
closed. -/
structure SourceState where
  isOpen : Bool
  pos : Int
deriving Repr, DecidableEq

/-- Modelled from the spec: `op::ProducerType`; the only distinction the
producer makes is webcam (live, unseekable) versus the rest. -/
inductive ProducerType where
  | imageDirectory
  | video
  | webcam
deriving Repr, DecidableEq

/-- The `DatumProducer` member state. -/
structure PState where
  mNumberFramesToProcess : Nat
  mGlobalCounter : Nat
  mNumberConsecutiveEmptyFrames : Nat
  spVideoSeek : Option SeekState
deriving Repr, DecidableEq

/-- Modelled from the spec: the external world as observed during one call —
what the source would answer to each query, whether the positional `set` call
throws, and an optional external overwrite of the seek channel happening
before the call (the concurrent controller, serialized at call granularity). -/
structure Oracle where
  seekWrite : Option SeekState := none
  stillOpen : Bool := true
  setFails : Bool := false
  frameName : String := ""
  frames : List Image := []
  cameraMatrices : List CalMat := []
  cameraExtrinsics : List CalMat := []
  cameraIntrinsics : List CalMat := []
deriving Repr, DecidableEq

/-- Fatal-error message reported when `spProducer->set` throws (the original
exception text is opaque; one constant stands for it). -/
def seekErrorMsg : String := "set CV_CAP_PROP_POS_FRAMES threw"

/-- Stall error message of `checkIfTooManyConsecutiveEmptyFrames`. -/
def stallMessage (n : Nat) : String :=
  "Detected too many (" ++ toString n ++ ") empty frames in a row."

/-- The stall threshold (500 in the source). -/
def stallThreshold : Nat := 500

/-- `DatumProducer::checkIfTooManyConsecutiveEmptyFrames`: bump-or-reset the
consecutive-empty counter (an `unsigned int`, hence `% 2 ^ 32`), and report
whether the stall error fires (`numberConsecutiveEmptyFrames >= threshold`).
When it fires, the raised message is `stallMessage` of the new counter. -/
def checkIfTooManyConsecutiveEmptyFrames (numberConsecutiveEmptyFrames : Nat)
    (emptyFrame : Bool) : Nat × Bool :=
  let n := if emptyFrame then (numberConsecutiveEmptyFrames + 1) % 2 ^ 32 else 0
  (n, decide (stallThreshold ≤ n))

/-- `"Input images must be 3-channel BGR."` -/
def channelMessage : String := "Input images must be 3-channel BGR."

/-- The notice logged when a grey image is converted. -/
def grayLogMessage : String := channelMessage ++ " Converting grey image into BGR."

/-- The image-integrity block applied to element 0's input image: returns the
(possibly converted) image, the log lines emitted, and whether the
unsupported-layout fatal error was raised. -/
def normalizeChannels (img : Image) : Image × List String × Bool :=
  if img.channels ≠ 3 then
    if img.channels = 1 then (cvtColorGray2BGR img, [grayLogMessage], false)
    else (img, [], true)
  else (img, [], false)

/-- The loop body for view `i ≥ 1`: shares element 0's identity, takes its own
image, and copies calibration only when `cameraMatrices.size() > i` (extrinsics
and intrinsics are indexed unguarded; out-of-bounds is tracked separately by
`extraViewOob`). -/
def populateExtraView (d0 : Datum) (o : Oracle) (i : Nat) : Datum :=
  let base : Datum :=
    { name := d0.name, frameNumber := d0.frameNumber,
      cvInputData := o.frames.getD i emptyMat,
      cvOutputData := o.frames.getD i emptyMat }
  if i < o.cameraMatrices.length then
    { base with cameraMatrix := o.cameraMatrices.getD i 0,
                cameraExtrinsics := o.cameraExtrinsics.getD i 0,
                cameraIntrinsics := o.cameraIntrinsics.getD i 0 }
  else base

/-- Whether the calibration copy for view `i ≥ 1` reads `cameraExtrinsics[i]`
or `cameraIntrinsics[i]` out of bounds (the access happens exactly when
`cameraMatrices.size() > i`). -/
def extraViewOob (o : Oracle) (i : Nat) : Bool :=
  decide (i < o.cameraMatrices.length ∧
    (o.cameraExtrinsics.length ≤ i ∨ o.cameraIntrinsics.length ≤ i))

/-- Whether the element-0 calibration copy reads `cameraExtrinsics[0]` or
`cameraIntrinsics[0]` out of bounds (the copy runs when `cameraMatrices` is
non-empty). -/
def firstViewOob (o : Oracle) : Bool :=
  (!o.cameraMatrices.isEmpty) && (o.cameraExtrinsics.isEmpty || o.cameraIntrinsics.isEmpty)

/-- The result of one `checkIfRunningAndGetDatum` call: the returned pair
(`running`, `batch`), the producer and source states after the call, the fatal
errors raised (`op::error`), the log lines, the seek delta actually applied to
the cursor (`none` when no `set` was issued by the seek block), whether
`mGlobalCounter` was incremented (a successfully delivered batch), and whether
any calibration access was out of bounds.  `batch = none` models a null
`shared_ptr`; `batch = some l` a non-null batch holding `l`. -/
structure CallResult where
  running : Bool
  batch : Option (List Datum)
  state : PState
  src : SourceState
  fatalMsgs : List String
  logs : List String
  seekMove : Option Int
  delivered : Bool
  oobCalib : Bool
deriving Repr, DecidableEq

/-- Element-0 population before the image-integrity block: identity fields,
the first fetched image, and the calibration triple copied only when
`cameraMatrices` is non-empty (extrinsics and intrinsics indexed unguarded at
0; out-of-bounds is tracked separately by `firstViewOob`). -/
def populateFirstView (o : Oracle) (frameNumber : Int) (img0 : Image) : Datum :=
  let d0a : Datum := { name := o.frameName, frameNumber := frameNumber, cvInputData := img0 }
  if !o.cameraMatrices.isEmpty then
    { d0a with cameraMatrix := o.cameraMatrices.getD 0 0,
               cameraExtrinsics := o.cameraExtrinsics.getD 0 0,
               cameraIntrinsics := o.cameraIntrinsics.getD 0 0 }
  else d0a

/-- The seek block: with a seek channel present, compute
`increment = second - (first ? 1 : 0)`; when non-zero, move the cursor by it
(`set` may throw: then nothing is moved and — crucially — the channel is NOT
reset, since the exception skips the reset line); otherwise reset the stored
increment to 0. -/
def seekPhase (videoSeek : Option SeekState) (src : SourceState) (setFails : Bool) :
    Option SeekState × SourceState × Option Int × Bool :=
  match videoSeek with
  | none => (none, src, none, false)
  | some s =>
      let increment : Int := s.increment - (if s.paused then 1 else 0)
      if increment ≠ 0 then
        if setFails then (some s, src, none, true)
        else (some { s with increment := 0 },
              { src with pos := src.pos + increment }, some increment, false)
      else (some { s with increment := 0 }, src, none, false)

/-- `DatumProducer::checkIfRunningAndGetDatum`, one call.  `op::error` is
modelled from the spec as the single fatal-error channel that fails the
current call: control reaches the enclosing catch, which returns
`(false, make_shared empty batch)`; member mutations already performed
persist. -/
def checkIfRunningAndGetDatum (st : PState) (src : SourceState) (o : Oracle) : CallResult :=
  -- Check last desired frame has not been reached
  let src1 :=
    if st.mNumberFramesToProcess ≠ ULLMAX ∧ st.mGlobalCounter > st.mNumberFramesToProcess then
      { src with isOpen := false }
    else src
  -- If producer released -> empty frames + a datumProducerRunning signal
  let running := src1.isOpen && o.stillOpen
  let src2 : SourceState := { src1 with isOpen := running }
  if running then
    let sOut := seekPhase st.spVideoSeek src2 o.setFails
    let st1 : PState := { st with spVideoSeek := sOut.1 }
    if sOut.2.2.2 then
      -- spProducer->set threw: caught at the boundary, fatal error, early return
      { running := false, batch := some [], state := st1, src := sOut.2.1,
        fatalMsgs := [seekErrorMsg], logs := [], seekMove := none,
        delivered := false, oobCalib := false }
    else
      let nextFrameNumber : Int := sOut.2.1.pos
      let cvMats := o.frames
      let emptyFrame := cvMats.isEmpty || (cvMats.getD 0 emptyMat).isEmpty
      let stall := checkIfTooManyConsecutiveEmptyFrames st1.mNumberConsecutiveEmptyFrames emptyFrame
      let st2 : PState := { st1 with mNumberConsecutiveEmptyFrames := stall.1 }
      if stall.2 then
        -- stall error raised inside the helper, fatal, early return
        { running := false, batch := some [], state := st2, src := sOut.2.1,
          fatalMsgs := [stallMessage stall.1], logs := [], seekMove := sOut.2.2.1,
          delivered := false, oobCalib := false }
      else
        match cvMats with
        | [] =>
            -- cvMats.empty(): the untouched (non-null, empty) batch is returned
            { running := true, batch := some [], state := st2, src := sOut.2.1,
              fatalMsgs := [], logs := [], seekMove := sOut.2.2.1,
              delivered := false, oobCalib := false }
        | img0 :: _ =>
            let d0b := populateFirstView o nextFrameNumber img0
            let norm := normalizeChannels d0b.cvInputData
            if norm.2.2 then
              -- unsupported channel layout: fatal error, early return
              { running := false, batch := some [], state := st2, src := sOut.2.1,
                fatalMsgs := [channelMessage], logs := [], seekMove := sOut.2.2.1,
                delivered := false, oobCalib := firstViewOob o }
            else
              let d0 : Datum := { d0b with cvInputData := norm.1, cvOutputData := norm.1 }
              let extraCount := cvMats.length - 1
              let rest := (List.range extraCount).map (fun j => populateExtraView d0 o (j + 1))
              let discarded := !true || d0.cvInputData.isEmpty
              let batchOpt := if discarded then none else some (d0 :: rest)
              { running := true, batch := batchOpt,
                state := { st2 with mGlobalCounter :=
                  if discarded then st2.mGlobalCounter
                  else (st2.mGlobalCounter + 1) % 2 ^ 64 },
                src := sOut.2.1, fatalMsgs := [], logs := norm.2.1,
                seekMove := sOut.2.2.1, delivered := !discarded,
                oobCalib := firstViewOob o || (List.range extraCount).any (fun j => extraViewOob o (j + 1)) }
  else
    -- device closed: return (false, the untouched non-null empty batch)
    { running := false, batch := some [], state := st, src := src2,
      fatalMsgs := [], logs := [], seekMove := none, delivered := false, oobCalib := false }

/-- The result of running the `DatumProducer` constructor: the initialized
member state, the source state after the initial cursor seek, and the errors
reported.  Modelled from the spec: `op::error` at construction time reports
the failure but is non-fatal to construction — the fully initialized producer
is still returned. -/
structure CtorResult where
  state : PState
  src : SourceState
  errors : List String
deriving Repr, DecidableEq

/-- `DatumProducer::DatumProducer`: member initialization (the range size is
the `unsigned long long` difference `frameLast - frameFirst` when `frameLast`
is not the sentinel), then — for non-webcam sources — the initial cursor seek
to `frameFirst`, whose failure is caught and reported. -/
def mkDatumProducer (producerType : ProducerType) (src : SourceState)
    (frameFirst : Nat) (frameLast : Nat) (videoSeek : Option SeekState)
    (ctorSetFails : Bool) : CtorResult :=
  let st : PState :=
    { mNumberFramesToProcess :=
        if frameLast ≠ ULLMAX then (frameLast + 2 ^ 64 - frameFirst) % 2 ^ 64 else frameLast,
      mGlobalCounter := 0,
      mNumberConsecutiveEmptyFrames := 0,
      spVideoSeek := videoSeek }
  if producerType ≠ ProducerType.webcam then
    if ctorSetFails then { state := st, src := src, errors := [seekErrorMsg] }
    else { state := st, src := { src with pos := (frameFirst : Int) }, errors := [] }
  else { state := st, src := src, errors := [] }

/-- An external overwrite of the seek channel between calls (possible only
when the producer holds a channel at all). -/
def applySeekWrite (st : PState) (w : Option SeekState) : PState :=
  match st.spVideoSeek, w with
  | some _, some s => { st with spVideoSeek := some s }
  | _, _ => st

/-- Run a sequence of calls; returns the final producer state, final source
state, and the number of successfully delivered batches. -/
def runCalls (st : PState) (src : SourceState) : List Oracle → PState × SourceState × Nat
  | [] => (st, src, 0)
  | o :: os =>
      let r := checkIfRunningAndGetDatum (applySeekWrite st o.seekWrite) src o
      let rest := runCalls r.state r.src os
      (rest.1, rest.2.1, (if r.delivered then 1 else 0) + rest.2.2)

/-- `k` consecutive empty reads fed to the stall guard starting from a zero
counter: final counter value and the stall messages raised along the way. -/
def emptyReadRun : Nat → Nat × List String
  | 0 => (0, [])
  | k + 1 =>
      let prev := emptyReadRun k
      let s := checkIfTooManyConsecutiveEmptyFrames prev.1 true
      (s.1, prev.2 ++ (if s.2 then [stallMessage s.1] else []))

/-! ### Concrete fixtures used by witnesses and counterexamples -/

/-- A non-empty 3-channel (BGR) image. -/
def bgrImg : Image := { channels := 3, isEmpty := false, data := 42 }

/-- A non-empty single-channel (grey) image. -/
def greyImg : Image := { channels := 1, isEmpty := false, data := 9 }

/-- A non-empty 2-channel image (unsupported layout). -/
def twoChanImg : Image := { channels := 2, isEmpty := false, data := 5 }

/-- An empty image carrying a 3-channel type flag. -/
def emptyBgrImg : Image := { channels := 3, isEmpty := true, data := 0 }

/-- A fresh producer state with an unbounded range and no seek channel. -/
def stFresh : PState :=
  { mNumberFramesToProcess := ULLMAX, mGlobalCounter := 0,
    mNumberConsecutiveEmptyFrames := 0, spVideoSeek := none }

/-- A fresh producer state one empty read away from the stall threshold. -/
def stNearStall : PState :=
  { stFresh with mNumberConsecutiveEmptyFrames := 499 }

/-- A fresh producer state holding a seek channel with a pending increment. -/
def stSeek5 : PState :=
  { stFresh with spVideoSeek := some { paused := false, increment := 5 } }

/-- A closed source. -/
def srcClosed : SourceState := { isOpen := false, pos := 0 }

/-- An open source positioned at frame 7. -/
def srcOpen7 : SourceState := { isOpen := true, pos := 7 }

/-- An oracle answering one good BGR frame. -/
def oOneFrame : Oracle := { frameName := "frame7", frames := [bgrImg] }

/-- An oracle answering one empty frame. -/
def oEmptyView : Oracle := { frames := [emptyBgrImg] }

/-- An oracle answering one good frame whose positional `set` call throws. -/
def oSetThrows : Oracle := { setFails := true, frames := [bgrImg] }

/-! ### Claim theorems -/

set_option maxRecDepth 4000 in
/-- C5: 499 consecutive empty reads starting from a zero counter raise no
fatal error; the 500th raises the stall error, whose message names the
consecutive-empty count (500); any non-empty read resets the counter to 0 and
raises nothing.  The last two conjuncts show the same wiring through a full
`checkIfRunningAndGetDatum` call on an empty read. -/
theorem stall_threshold_behaviour :
    (emptyReadRun 499).2 = [] ∧
    (emptyReadRun 500).2 = ["Detected too many (500) empty frames in a row."] ∧
    (∀ n, checkIfTooManyConsecutiveEmptyFrames n false = (0, false)) ∧
    (checkIfRunningAndGetDatum { stFresh with mNumberConsecutiveEmptyFrames := 498 }
        srcOpen7 oEmptyView).fatalMsgs = [] ∧
    (checkIfRunningAndGetDatum stNearStall srcOpen7 oEmptyView).fatalMsgs =
      [stallMessage 500] := by
  refine ⟨by decide, by decide, fun n => rfl, by decide, by decide⟩

/-- C2 (amended reading of the source as the spec directs): when the
construction-time cursor seek fails, construction still completes — the
returned member state is exactly the state a successful construction yields —
and the failure is reported through the error channel. -/
theorem ctor_seek_failure_nonfatal (producerType : ProducerType) (src : SourceState)
    (frameFirst frameLast : Nat) (videoSeek : Option SeekState)
    (h : producerType ≠ ProducerType.webcam) :
    (mkDatumProducer producerType src frameFirst frameLast videoSeek true).state =
      (mkDatumProducer producerType src frameFirst frameLast videoSeek false).state ∧
    (mkDatumProducer producerType src frameFirst frameLast videoSeek true).errors =
      [seekErrorMsg] ∧
    (mkDatumProducer producerType src frameFirst frameLast videoSeek true).state.mGlobalCounter
      = 0 ∧
    (mkDatumProducer producerType src frameFirst frameLast videoSeek true).state.spVideoSeek
      = videoSeek := by
  unfold mkDatumProducer
  simp [h]

/-- Witness for `ctor_seek_failure_nonfatal` at a video source. -/
theorem ctor_seek_failure_nonfatal_witness :
    (mkDatumProducer ProducerType.video srcOpen7 3 10 none true).state =
      (mkDatumProducer ProducerType.video srcOpen7 3 10 none false).state ∧
    (mkDatumProducer ProducerType.video srcOpen7 3 10 none true).errors = [seekErrorMsg] ∧
    (mkDatumProducer ProducerType.video srcOpen7 3 10 none true).state.mGlobalCounter = 0 ∧
    (mkDatumProducer ProducerType.video srcOpen7 3 10 none true).state.spVideoSeek = none :=
  ctor_seek_failure_nonfatal ProducerType.video srcOpen7 3 10 none (by decide)

/-- C3 as stated is false: a call on a closed source returns the untouched
non-null empty batch (`some []`), not a null batch. -/
theorem exhaustion_null_batch_cex :
    (checkIfRunningAndGetDatum stFresh srcClosed {}).batch = some [] ∧
    (checkIfRunningAndGetDatum stFresh srcClosed {}).batch ≠ none := by
  refine ⟨by decide, by decide⟩

/-- C3 amended: once the source reports closed, every call returns
`(false, empty batch)`, the producer state (in particular `mGlobalCounter`) is
unchanged, and the source stays closed — so the same holds for all subsequent
calls. -/
theorem exhaustion_closed_source (st : PState) (src : SourceState) (o : Oracle)
    (h : src.isOpen = false) :
    (checkIfRunningAndGetDatum st src o).running = false ∧
    (checkIfRunningAndGetDatum st src o).batch = some [] ∧
    (checkIfRunningAndGetDatum st src o).state = st ∧
    (checkIfRunningAndGetDatum st src o).src.isOpen = false := by
  unfold checkIfRunningAndGetDatum
  split <;> simp [h]

/-- Witness for `exhaustion_closed_source` on a concrete closed source. -/
theorem exhaustion_closed_source_witness :
    (checkIfRunningAndGetDatum stFresh srcClosed oOneFrame).running = false ∧
    (checkIfRunningAndGetDatum stFresh srcClosed oOneFrame).batch = some [] ∧
    (checkIfRunningAndGetDatum stFresh srcClosed oOneFrame).state = stFresh ∧
    (checkIfRunningAndGetDatum stFresh srcClosed oOneFrame).src.isOpen = false :=
  exhaustion_closed_source stFresh srcClosed oOneFrame rfl

/-- When the seek block reports a `set` failure, no cursor move was issued. -/
lemma seekPhase_fatal_move (vs : Option SeekState) (src : SourceState) (f : Bool)
    (h : (seekPhase vs src f).2.2.2 = true) : (seekPhase vs src f).2.2.1 = none := by
  rcases vs with - | s
  · rfl
  · by_cases hd : s.increment - (if s.paused then 1 else 0) = 0
    · simp [seekPhase, hd]
    · cases f
      · simp [seekPhase, hd] at h
      · simp [seekPhase, hd]

/-- On a call that finds the source running, the seek channel, the applied
cursor move and the resulting source state are exactly those produced by the
seek block, whatever happens later in the call. -/
lemma call_seek_fields (st : PState) (src : SourceState) (o : Oracle)
    (hrel : ¬(st.mNumberFramesToProcess ≠ ULLMAX ∧
              st.mGlobalCounter > st.mNumberFramesToProcess))
    (hopen : src.isOpen = true) (hstill : o.stillOpen = true) :
    (checkIfRunningAndGetDatum st src o).state.spVideoSeek =
      (seekPhase st.spVideoSeek { src with isOpen := true } o.setFails).1 ∧
    (checkIfRunningAndGetDatum st src o).seekMove =
      (seekPhase st.spVideoSeek { src with isOpen := true } o.setFails).2.2.1 ∧
    (checkIfRunningAndGetDatum st src o).src =
      (seekPhase st.spVideoSeek { src with isOpen := true } o.setFails).2.1 := by
  unfold checkIfRunningAndGetDatum
  rw [if_neg hrel]
  simp only [hopen, hstill, Bool.and_self, if_true]
  refine ⟨?_, ?_, ?_⟩
  · repeat' split
    all_goals rfl
  · split
    · rename_i hfat
      exact (seekPhase_fatal_move _ _ _ hfat).symm
    · repeat' split
      all_goals rfl
  · repeat' split
    all_goals rfl

/-- C4 as stated is false: when the cursor-move throws, the exception skips
the reset line, so a pending increment of 5 is still stored after the call
(the fatal error is reported instead). -/
theorem seek_reset_on_failure_cex :
    (checkIfRunningAndGetDatum stSeek5 srcOpen7 oSetThrows).state.spVideoSeek =
      some { paused := false, increment := 5 } ∧
    (checkIfRunningAndGetDatum stSeek5 srcOpen7 oSetThrows).state.spVideoSeek ≠
      some { paused := false, increment := 0 } ∧
    (checkIfRunningAndGetDatum stSeek5 srcOpen7 oSetThrows).fatalMsgs = [seekErrorMsg] := by
  refine ⟨by decide, by decide, by decide⟩

/-- C4 amended: on a call with the source open and a seek channel present, the
stored increment is 0 after the call whenever the cursor-move does not throw
(whether or not a move was issued); when the cursor-move throws, the stored
increment is left unchanged. -/
theorem seek_one_shot_reset (st : PState) (src : SourceState) (o : Oracle) (s : SeekState)
    (hseek : st.spVideoSeek = some s)
    (hrel : st.mNumberFramesToProcess ≠ ULLMAX →
            st.mGlobalCounter ≤ st.mNumberFramesToProcess)
    (hopen : src.isOpen = true) (hstill : o.stillOpen = true) :
    (o.setFails = false →
      (checkIfRunningAndGetDatum st src o).state.spVideoSeek =
        some { s with increment := 0 }) ∧
    (o.setFails = true → s.increment - (if s.paused then 1 else 0) ≠ 0 →
      (checkIfRunningAndGetDatum st src o).state.spVideoSeek = some s) := by
  have hrel2 : ¬(st.mNumberFramesToProcess ≠ ULLMAX ∧
      st.mGlobalCounter > st.mNumberFramesToProcess) := by
    rintro ⟨a, b⟩
    exact absurd (hrel a) (Nat.not_le.mpr b)
  obtain ⟨h1, -, -⟩ := call_seek_fields st src o hrel2 hopen hstill
  constructor
  · intro hnf
    rw [h1, hseek, hnf]
    simp only [seekPhase]
    repeat' split
    all_goals simp_all
  · intro hsf hd
    rw [h1, hseek, hsf]
    simp [seekPhase, hd]

/-- Witness for `seek_one_shot_reset`: a successful move consumes the pending
increment of 5. -/
theorem seek_one_shot_reset_witness :
    (({} : Oracle).setFails = false →
      (checkIfRunningAndGetDatum stSeek5 srcOpen7 {}).state.spVideoSeek =
        some { paused := false, increment := 0 }) ∧
    (({} : Oracle).setFails = true →
      (5 : Int) - (if false then 1 else 0) ≠ 0 →
      (checkIfRunningAndGetDatum stSeek5 srcOpen7 {}).state.spVideoSeek =
        some { paused := false, increment := 5 }) :=
  seek_one_shot_reset stSeek5 srcOpen7 {} { paused := false, increment := 5 }
    rfl (by decide) rfl rfl

/-- C6: with a seek channel present and the source open, the delta applied to
the cursor is `increment - (paused ? 1 : 0)`; no cursor move is issued when
that delta is 0; in particular with `paused = true` and `increment = 0` the
cursor moves by exactly −1. -/
theorem pause_compensation (st : PState) (src : SourceState) (o : Oracle) (s : SeekState)
    (hseek : st.spVideoSeek = some s)
    (hrel : st.mNumberFramesToProcess ≠ ULLMAX →
            st.mGlobalCounter ≤ st.mNumberFramesToProcess)
    (hopen : src.isOpen = true) (hstill : o.stillOpen = true) (hnf : o.setFails = false) :
    (s.increment - (if s.paused then 1 else 0) ≠ 0 →
      (checkIfRunningAndGetDatum st src o).seekMove =
        some (s.increment - (if s.paused then 1 else 0)) ∧
      (checkIfRunningAndGetDatum st src o).src.pos =
        src.pos + (s.increment - (if s.paused then 1 else 0))) ∧
    (s.increment - (if s.paused then 1 else 0) = 0 →
      (checkIfRunningAndGetDatum st src o).seekMove = none ∧
      (checkIfRunningAndGetDatum st src o).src.pos = src.pos) ∧
    (s.paused = true → s.increment = 0 →
      (checkIfRunningAndGetDatum st src o).seekMove = some (-1) ∧
      (checkIfRunningAndGetDatum st src o).src.pos = src.pos - 1) := by
  have hrel2 : ¬(st.mNumberFramesToProcess ≠ ULLMAX ∧
      st.mGlobalCounter > st.mNumberFramesToProcess) := by
    rintro ⟨a, b⟩
    exact absurd (hrel a) (Nat.not_le.mpr b)
  obtain ⟨-, h2, h3⟩ := call_seek_fields st src o hrel2 hopen hstill
  have hmain : ∀ d : Int, d = s.increment - (if s.paused then 1 else 0) →
      (d ≠ 0 → (checkIfRunningAndGetDatum st src o).seekMove = some d ∧
        (checkIfRunningAndGetDatum st src o).src.pos = src.pos + d) ∧
      (d = 0 → (checkIfRunningAndGetDatum st src o).seekMove = none ∧
        (checkIfRunningAndGetDatum st src o).src.pos = src.pos) := by
    intro d hd
    constructor
    · intro hne
      rw [h2, h3, hseek, hnf]
      simp [seekPhase, ← hd, hne]
    · intro hz
      rw [h2, h3, hseek, hnf]
      simp [seekPhase, ← hd, hz]
  obtain ⟨ha, hb⟩ := hmain (s.increment - (if s.paused then 1 else 0)) rfl
  refine ⟨ha, hb, ?_⟩
  intro hp hz
  have hd1 : s.increment - (if s.paused then 1 else 0) = -1 := by
    rw [hp, hz]
    simp
  obtain ⟨hm, hpos⟩ := ha (by rw [hd1]; decide)
  rw [hd1] at hm hpos
  refine ⟨hm, ?_⟩
  rw [hpos]
  ring

/-- Witness for `pause_compensation` on a paused channel with zero pending
increment: the cursor steps back by one frame. -/
theorem pause_compensation_witness :
    (((5 : Int) - (if false then 1 else 0) ≠ 0 →
      (checkIfRunningAndGetDatum stSeek5 srcOpen7 oOneFrame).seekMove =
        some ((5 : Int) - (if false then 1 else 0)) ∧
      (checkIfRunningAndGetDatum stSeek5 srcOpen7 oOneFrame).src.pos =
        srcOpen7.pos + ((5 : Int) - (if false then 1 else 0))) ∧
    ((5 : Int) - (if false then 1 else 0) = 0 →
      (checkIfRunningAndGetDatum stSeek5 srcOpen7 oOneFrame).seekMove = none ∧
      (checkIfRunningAndGetDatum stSeek5 srcOpen7 oOneFrame).src.pos = srcOpen7.pos) ∧
    (false = true → (5 : Int) = 0 →
      (checkIfRunningAndGetDatum stSeek5 srcOpen7 oOneFrame).seekMove = some (-1) ∧
      (checkIfRunningAndGetDatum stSeek5 srcOpen7 oOneFrame).src.pos = srcOpen7.pos - 1)) :=
  pause_compensation stSeek5 srcOpen7 oOneFrame { paused := false, increment := 5 }
    rfl (by decide) rfl rfl rfl

/-! ### Shape of the result on a good read -/

/-- The batch produced by a call that reads a non-empty first view without any
fatal error, written in closed form. -/
def goodBatch (st : PState) (src : SourceState) (o : Oracle) : List Datum :=
  let pos := (seekPhase st.spVideoSeek { src with isOpen := true } false).2.1.pos
  let img0 := o.frames.getD 0 emptyMat
  let d0b := populateFirstView o pos img0
  let d0 : Datum := { d0b with cvInputData := (normalizeChannels img0).1,
                               cvOutputData := (normalizeChannels img0).1 }
  d0 :: (List.range (o.frames.length - 1)).map (fun j => populateExtraView d0 o (j + 1))

lemma populateFirstView_cvInputData (o : Oracle) (n : Int) (i : Image) :
    (populateFirstView o n i).cvInputData = i := by
  unfold populateFirstView
  split <;> rfl

lemma populateFirstView_name (o : Oracle) (n : Int) (i : Image) :
    (populateFirstView o n i).name = o.frameName := by
  unfold populateFirstView
  split <;> rfl

lemma populateFirstView_frameNumber (o : Oracle) (n : Int) (i : Image) :
    (populateFirstView o n i).frameNumber = n := by
  unfold populateFirstView
  split <;> rfl

lemma normalizeChannels_bgr (img : Image) (h : img.channels = 3) :
    normalizeChannels img = (img, [], false) := by
  simp [normalizeChannels, h]

lemma normalizeChannels_grey (img : Image) (h : img.channels = 1) :
    normalizeChannels img = (cvtColorGray2BGR img, [grayLogMessage], false) := by
  simp [normalizeChannels, h]

lemma normalizeChannels_bad (img : Image) (h3 : img.channels ≠ 3) (h1 : img.channels ≠ 1) :
    normalizeChannels img = (img, [], true) := by
  simp [normalizeChannels, h3, h1]

lemma seekPhase_no_fail (vs : Option SeekState) (src : SourceState) :
    (seekPhase vs src false).2.2.2 = false := by
  rcases vs with - | s
  · rfl
  · simp only [seekPhase]
    repeat' split
    all_goals simp_all

lemma stall_check_nonempty (n : Nat) :
    checkIfTooManyConsecutiveEmptyFrames n false = (0, false) := rfl

lemma stall_check_empty (n : Nat) (h : n + 1 < stallThreshold) :
    checkIfTooManyConsecutiveEmptyFrames n true = (n + 1, false) := by
  unfold checkIfTooManyConsecutiveEmptyFrames
  have hm : (n + 1) % 2 ^ 32 = n + 1 := by
    apply Nat.mod_eq_of_lt
    have : stallThreshold ≤ 2 ^ 32 := by decide
    omega
  simp only [if_true, hm]
  have : ¬(stallThreshold ≤ n + 1) := by omega
  simp [this]

/-- A call that finds the source running, whose seek set-call does not throw,
and that reads a non-empty first view, with a supported channel layout,
delivers exactly `goodBatch`, increments `mGlobalCounter`, resets the
consecutive-empty counter, raises no fatal error, and logs the conversion
notice exactly when the first view is single-channel. -/
lemma call_good_read (st : PState) (src : SourceState) (o : Oracle) (img : Image)
    (tl : List Image)
    (hrel2 : ¬(st.mNumberFramesToProcess ≠ ULLMAX ∧
               st.mGlobalCounter > st.mNumberFramesToProcess))
    (hopen : src.isOpen = true) (hstill : o.stillOpen = true) (hnf : o.setFails = false)
    (hf : o.frames = img :: tl) (hne : img.isEmpty = false)
    (hch : img.channels = 3 ∨ img.channels = 1) :
    (checkIfRunningAndGetDatum st src o).batch = some (goodBatch st src o) ∧
    (checkIfRunningAndGetDatum st src o).running = true ∧
    (checkIfRunningAndGetDatum st src o).delivered = true ∧
    (checkIfRunningAndGetDatum st src o).fatalMsgs = [] ∧
    (checkIfRunningAndGetDatum st src o).logs =
      (if img.channels = 3 then [] else [grayLogMessage]) ∧
    (checkIfRunningAndGetDatum st src o).state.mGlobalCounter =
      (st.mGlobalCounter + 1) % 2 ^ 64 ∧
    (checkIfRunningAndGetDatum st src o).state.mNumberConsecutiveEmptyFrames = 0 ∧
    (checkIfRunningAndGetDatum st src o).oobCalib =
      (firstViewOob o ||
        (List.range (o.frames.length - 1)).any (fun j => extraViewOob o (j + 1))) := by
  unfold checkIfRunningAndGetDatum goodBatch
  rw [if_neg hrel2]
  simp only [hopen, hstill, Bool.and_self, if_true, hnf, seekPhase_no_fail,
    Bool.false_eq_true, if_false, hf, List.isEmpty_cons, List.getD_cons_zero, hne,
    Bool.or_self, stall_check_nonempty, List.length_cons, Nat.add_sub_cancel,
    populateFirstView_cvInputData]
  rcases hch with h3 | h1
  · simp [normalizeChannels_bgr img h3, hne, h3]
  · have h3 : img.channels ≠ 3 := by omega
    simp [normalizeChannels_grey img h1, cvtColorGray2BGR, hne, h1, h3]

lemma populateExtraView_name (d0 : Datum) (o : Oracle) (i : Nat) :
    (populateExtraView d0 o i).name = d0.name := by
  unfold populateExtraView
  split <;> rfl

lemma populateExtraView_frameNumber (d0 : Datum) (o : Oracle) (i : Nat) :
    (populateExtraView d0 o i).frameNumber = d0.frameNumber := by
  unfold populateExtraView
  split <;> rfl

lemma populateExtraView_cvInputData (d0 : Datum) (o : Oracle) (i : Nat) :
    (populateExtraView d0 o i).cvInputData = o.frames.getD i emptyMat := by
  unfold populateExtraView
  split <;> rfl

lemma getD_map_range (m : Nat) (f : Nat → Datum) (j : Nat) (hj : j < m) (d : Datum) :
    ((List.range m).map f).getD j d = f j := by
  rw [List.getD_eq_getElem?_getD, List.getElem?_map, List.getElem?_range hj]
  rfl

lemma goodBatch_length (st : PState) (src : SourceState) (o : Oracle)
    (h : o.frames ≠ []) : (goodBatch st src o).length = o.frames.length := by
  have hp : 0 < o.frames.length := List.length_pos.mpr h
  simp only [goodBatch, List.length_cons, List.length_map, List.length_range]
  omega

/-- A call on a running source whose first view has an unsupported channel
layout raises the unsupported-layout fatal error; the catch returns
`(false, empty batch)` and no batch is delivered. -/
lemma call_bad_channels (st : PState) (src : SourceState) (o : Oracle) (img : Image)
    (tl : List Image)
    (hrel2 : ¬(st.mNumberFramesToProcess ≠ ULLMAX ∧
               st.mGlobalCounter > st.mNumberFramesToProcess))
    (hopen : src.isOpen = true) (hstill : o.stillOpen = true) (hnf : o.setFails = false)
    (hf : o.frames = img :: tl) (hne : img.isEmpty = false)
    (h3 : img.channels ≠ 3) (h1 : img.channels ≠ 1) :
    (checkIfRunningAndGetDatum st src o).fatalMsgs = [channelMessage] ∧
    (checkIfRunningAndGetDatum st src o).batch = some [] ∧
    (checkIfRunningAndGetDatum st src o).delivered = false ∧
    (checkIfRunningAndGetDatum st src o).running = false ∧
    (checkIfRunningAndGetDatum st src o).state.mGlobalCounter = st.mGlobalCounter := by
  unfold checkIfRunningAndGetDatum
  rw [if_neg hrel2]
  simp only [hopen, hstill, Bool.and_self, if_true, hnf, seekPhase_no_fail,
    Bool.false_eq_true, if_false, hf, List.isEmpty_cons, List.getD_cons_zero, hne,
    Bool.or_self, stall_check_nonempty, populateFirstView_cvInputData]
  simp [normalizeChannels_bad img h3 h1]

/-- C7: for a call that delivers, a 3-channel primary view is passed through
unchanged with no log and no error; a 1-channel primary view is converted by
channel replication to 3 channels with the conversion notice logged; any other
channel count raises the unsupported-layout fatal error; and element 0's
output image equals its (possibly converted) input image. -/
theorem channel_normalization (st : PState) (src : SourceState) (o : Oracle)
    (img : Image) (tl : List Image)
    (hrel : st.mNumberFramesToProcess ≠ ULLMAX →
            st.mGlobalCounter ≤ st.mNumberFramesToProcess)
    (hopen : src.isOpen = true) (hstill : o.stillOpen = true) (hnf : o.setFails = false)
    (hf : o.frames = img :: tl) (hne : img.isEmpty = false) :
    (img.channels = 3 →
      ∃ d t, (checkIfRunningAndGetDatum st src o).batch = some (d :: t) ∧
        d.cvInputData = img ∧ d.cvOutputData = img ∧
        (checkIfRunningAndGetDatum st src o).fatalMsgs = [] ∧
        (checkIfRunningAndGetDatum st src o).logs = []) ∧
    (img.channels = 1 →
      ∃ d t, (checkIfRunningAndGetDatum st src o).batch = some (d :: t) ∧
        d.cvInputData = cvtColorGray2BGR img ∧ d.cvInputData.channels = 3 ∧
        d.cvOutputData = d.cvInputData ∧
        (checkIfRunningAndGetDatum st src o).logs = [grayLogMessage] ∧
        (checkIfRunningAndGetDatum st src o).fatalMsgs = []) ∧
    (img.channels ≠ 3 → img.channels ≠ 1 →
      (checkIfRunningAndGetDatum st src o).fatalMsgs = [channelMessage] ∧
      (checkIfRunningAndGetDatum st src o).batch = some [] ∧
      (checkIfRunningAndGetDatum st src o).delivered = false) := by
  have hrel2 : ¬(st.mNumberFramesToProcess ≠ ULLMAX ∧
      st.mGlobalCounter > st.mNumberFramesToProcess) := by
    rintro ⟨a, b⟩
    exact absurd (hrel a) (Nat.not_le.mpr b)
  refine ⟨?_, ?_, ?_⟩
  · intro h3
    obtain ⟨hb, -, -, hfm, hlg, -, -, -⟩ :=
      call_good_read st src o img tl hrel2 hopen hstill hnf hf hne (Or.inl h3)
    simp only [goodBatch] at hb
    refine ⟨_, _, hb, ?_, ?_, hfm, ?_⟩
    · simp [hf, normalizeChannels_bgr img h3]
    · simp [hf, normalizeChannels_bgr img h3]
    · rw [hlg]
      simp [h3]
  · intro h1
    obtain ⟨hb, -, -, hfm, hlg, -, -, -⟩ :=
      call_good_read st src o img tl hrel2 hopen hstill hnf hf hne (Or.inr h1)
    simp only [goodBatch] at hb
    refine ⟨_, _, hb, ?_, ?_, ?_, ?_, hfm⟩
    · simp [hf, normalizeChannels_grey img h1]
    · simp [hf, normalizeChannels_grey img h1, cvtColorGray2BGR]
    · rfl
    · rw [hlg]
      have h3 : img.channels ≠ 3 := by omega
      simp [h3]
  · intro h3 h1
    obtain ⟨ha, hb, hc, -, -⟩ :=
      call_bad_channels st src o img tl hrel2 hopen hstill hnf hf hne h3 h1
    exact ⟨ha, hb, hc⟩

/-- Witness for `channel_normalization` on a single-channel (grey) first
view. -/
theorem channel_normalization_witness :
    (greyImg.channels = 3 →
      ∃ d t, (checkIfRunningAndGetDatum stFresh srcOpen7 { frames := [greyImg] }).batch
          = some (d :: t) ∧
        d.cvInputData = greyImg ∧ d.cvOutputData = greyImg ∧
        (checkIfRunningAndGetDatum stFresh srcOpen7 { frames := [greyImg] }).fatalMsgs = [] ∧
        (checkIfRunningAndGetDatum stFresh srcOpen7 { frames := [greyImg] }).logs = []) ∧
    (greyImg.channels = 1 →
      ∃ d t, (checkIfRunningAndGetDatum stFresh srcOpen7 { frames := [greyImg] }).batch
          = some (d :: t) ∧
        d.cvInputData = cvtColorGray2BGR greyImg ∧ d.cvInputData.channels = 3 ∧
        d.cvOutputData = d.cvInputData ∧
        (checkIfRunningAndGetDatum stFresh srcOpen7 { frames := [greyImg] }).logs
          = [grayLogMessage] ∧
        (checkIfRunningAndGetDatum stFresh srcOpen7 { frames := [greyImg] }).fatalMsgs = []) ∧
    (greyImg.channels ≠ 3 → greyImg.channels ≠ 1 →
      (checkIfRunningAndGetDatum stFresh srcOpen7 { frames := [greyImg] }).fatalMsgs
        = [channelMessage] ∧
      (checkIfRunningAndGetDatum stFresh srcOpen7 { frames := [greyImg] }).batch = some [] ∧
      (checkIfRunningAndGetDatum stFresh srcOpen7 { frames := [greyImg] }).delivered
        = false) :=
  channel_normalization stFresh srcOpen7 { frames := [greyImg] } greyImg []
    (by decide) rfl rfl rfl rfl rfl

/-- C8: every delivered batch (of any length) has all elements sharing
element 0's `name` and `frameNumber`, and each element `i ≥ 1` carries the
fetched view image at index `i`. -/
theorem multiview_identity (st : PState) (src : SourceState) (o : Oracle)
    (img : Image) (tl : List Image)
    (hrel : st.mNumberFramesToProcess ≠ ULLMAX →
            st.mGlobalCounter ≤ st.mNumberFramesToProcess)
    (hopen : src.isOpen = true) (hstill : o.stillOpen = true) (hnf : o.setFails = false)
    (hf : o.frames = img :: tl) (hne : img.isEmpty = false)
    (hch : img.channels = 3 ∨ img.channels = 1) :
    ∀ l, (checkIfRunningAndGetDatum st src o).batch = some l →
      l.length = o.frames.length ∧
      (∀ i, i < l.length →
        (l.getD i datumDefault).name = (l.getD 0 datumDefault).name ∧
        (l.getD i datumDefault).frameNumber = (l.getD 0 datumDefault).frameNumber) ∧
      (∀ i, 1 ≤ i → i < l.length →
        (l.getD i datumDefault).cvInputData = o.frames.getD i emptyMat) := by
  have hrel2 : ¬(st.mNumberFramesToProcess ≠ ULLMAX ∧
      st.mGlobalCounter > st.mNumberFramesToProcess) := by
    rintro ⟨a, b⟩
    exact absurd (hrel a) (Nat.not_le.mpr b)
  obtain ⟨hb, -⟩ := call_good_read st src o img tl hrel2 hopen hstill hnf hf hne hch
  intro l hl
  rw [hb] at hl
  have hlg : goodBatch st src o = l := by
    injection hl
  subst hlg
  have hnil : o.frames ≠ [] := by
    rw [hf]
    simp
  have hlen : (goodBatch st src o).length = o.frames.length := goodBatch_length st src o hnil
  have hlentl : o.frames.length = tl.length + 1 := by
    rw [hf]
    rfl
  refine ⟨hlen, ?_, ?_⟩
  · intro i hi
    rcases i with - | j
    · exact ⟨rfl, rfl⟩
    · have hj : j < tl.length := by omega
      have hj2 : j < o.frames.length - 1 := by omega
      simp only [goodBatch, List.getD_cons_succ, List.getD_cons_zero]
      rw [getD_map_range (o.frames.length - 1) _ j hj2]
      exact ⟨populateExtraView_name _ o _, populateExtraView_frameNumber _ o _⟩
  · intro i h1 hi
    rcases i with - | j
    · omega
    · have hj2 : j < o.frames.length - 1 := by omega
      simp only [goodBatch, List.getD_cons_succ]
      rw [getD_map_range (o.frames.length - 1) _ j hj2]
      exact populateExtraView_cvInputData _ o _

/-- An oracle answering three views with two calibration triples. -/
def oThreeView : Oracle :=
  { frameName := "s", frames := [bgrImg, greyImg, bgrImg],
    cameraMatrices := [1, 2], cameraExtrinsics := [3, 4], cameraIntrinsics := [5, 6] }

/-- The batch the producer delivers for `oThreeView` from `stFresh` at source
position 7, written out in full. -/
def threeViewBatch : List Datum :=
  [{ name := "s", frameNumber := 7, cvInputData := bgrImg, cvOutputData := bgrImg,
     cameraMatrix := 1, cameraExtrinsics := 3, cameraIntrinsics := 5 },
   { name := "s", frameNumber := 7, cvInputData := greyImg, cvOutputData := greyImg,
     cameraMatrix := 2, cameraExtrinsics := 4, cameraIntrinsics := 6 },
   { name := "s", frameNumber := 7, cvInputData := bgrImg, cvOutputData := bgrImg,
     cameraMatrix := 0, cameraExtrinsics := 0, cameraIntrinsics := 0 }]

/-- Witness for `multiview_identity` on a concrete three-view batch. -/
theorem multiview_identity_witness :
    threeViewBatch.length = oThreeView.frames.length ∧
    (∀ i, i < threeViewBatch.length →
      (threeViewBatch.getD i datumDefault).name =
        (threeViewBatch.getD 0 datumDefault).name ∧
      (threeViewBatch.getD i datumDefault).frameNumber =
        (threeViewBatch.getD 0 datumDefault).frameNumber) ∧
    (∀ i, 1 ≤ i → i < threeViewBatch.length →
      (threeViewBatch.getD i datumDefault).cvInputData =
        oThreeView.frames.getD i emptyMat) :=
  multiview_identity stFresh srcOpen7 oThreeView
    bgrImg [greyImg, bgrImg] (by decide) rfl rfl rfl rfl rfl (Or.inl rfl)
    threeViewBatch (by decide)

/-- C9 as stated is false: with the consecutive-empty counter at 499, a call
whose first view is empty hits the stall threshold inside the same call, so it
returns `(false, empty batch)` from the catch — not `(sourceStillOpen, null)`
as the claim demands for every such call. -/
theorem discard_on_empty_cex :
    (checkIfRunningAndGetDatum stNearStall srcOpen7 oEmptyView).batch ≠ none ∧
    (checkIfRunningAndGetDatum stNearStall srcOpen7 oEmptyView).running = false ∧
    (checkIfRunningAndGetDatum stNearStall srcOpen7 oEmptyView).fatalMsgs =
      [stallMessage 500] := by
  refine ⟨by decide, by decide, by decide⟩

/-- C9 amended: when the call raises no fatal error (the stall threshold is
not reached and the first view's channel count is supported), a non-empty view
set whose first image is empty yields `(sourceStillOpen = true, null batch)`
and leaves `mGlobalCounter` unchanged. -/
theorem discard_on_empty_guarded (st : PState) (src : SourceState) (o : Oracle)
    (img : Image) (tl : List Image)
    (hrel : st.mNumberFramesToProcess ≠ ULLMAX →
            st.mGlobalCounter ≤ st.mNumberFramesToProcess)
    (hopen : src.isOpen = true) (hstill : o.stillOpen = true) (hnf : o.setFails = false)
    (hf : o.frames = img :: tl) (hemp : img.isEmpty = true)
    (hch : img.channels = 3 ∨ img.channels = 1)
    (hstall : st.mNumberConsecutiveEmptyFrames + 1 < stallThreshold) :
    (checkIfRunningAndGetDatum st src o).running = true ∧
    (checkIfRunningAndGetDatum st src o).batch = none ∧
    (checkIfRunningAndGetDatum st src o).delivered = false ∧
    (checkIfRunningAndGetDatum st src o).state.mGlobalCounter = st.mGlobalCounter := by
  have hrel2 : ¬(st.mNumberFramesToProcess ≠ ULLMAX ∧
      st.mGlobalCounter > st.mNumberFramesToProcess) := by
    rintro ⟨a, b⟩
    exact absurd (hrel a) (Nat.not_le.mpr b)
  unfold checkIfRunningAndGetDatum
  rw [if_neg hrel2]
  simp only [hopen, hstill, Bool.and_self, if_true, hnf, seekPhase_no_fail,
    Bool.false_eq_true, if_false, hf, List.isEmpty_cons, List.getD_cons_zero, hemp,
    Bool.or_true, stall_check_empty st.mNumberConsecutiveEmptyFrames hstall,
    populateFirstView_cvInputData]
  rcases hch with h3 | h1
  · simp [normalizeChannels_bgr img h3, hemp]
  · simp [normalizeChannels_grey img h1, cvtColorGray2BGR, hemp]

/-- Witness for `discard_on_empty_guarded` on a fresh producer reading one
empty 3-channel view. -/
theorem discard_on_empty_guarded_witness :
    (checkIfRunningAndGetDatum stFresh srcOpen7 oEmptyView).running = true ∧
    (checkIfRunningAndGetDatum stFresh srcOpen7 oEmptyView).batch = none ∧
    (checkIfRunningAndGetDatum stFresh srcOpen7 oEmptyView).delivered = false ∧
    (checkIfRunningAndGetDatum stFresh srcOpen7 oEmptyView).state.mGlobalCounter =
      stFresh.mGlobalCounter :=
  discard_on_empty_guarded stFresh srcOpen7 oEmptyView emptyBgrImg []
    (by decide) rfl rfl rfl rfl rfl (Or.inl rfl) (by decide)

/-- Element-0 calibration access is in bounds exactly when either no camera
matrix was returned or both parallel sequences are non-empty. -/
lemma bool_guard_head_iff (cm ce ci : List CalMat) :
    ((!cm.isEmpty) && (ce.isEmpty || ci.isEmpty)) = false ↔
      (cm.length = 0 ∨ (ce.length ≠ 0 ∧ ci.length ≠ 0)) := by
  cases cm <;> cases ce <;> cases ci <;> simp

/-- Arithmetic core of the calibration-bounds condition: no access among
indices `0` (when `c > 0`) and `j + 1 < c` for `j < m` falls outside lengths
`e` and `i` exactly when both are at least `min c (m + 1)`. -/
lemma calib_guard_arith (c e i m : Nat) :
    ((c = 0 ∨ (e ≠ 0 ∧ i ≠ 0)) ∧
     (∀ j, j < m → ¬(j + 1 < c ∧ (e ≤ j + 1 ∨ i ≤ j + 1)))) ↔
    (min c (m + 1) ≤ e ∧ min c (m + 1) ≤ i) := by
  constructor
  · rintro ⟨h0, hall⟩
    rcases Nat.eq_zero_or_pos c with hc | hc
    · constructor <;> simp [hc]
    · have he0 : e ≠ 0 := by
        rcases h0 with h | h
        · omega
        · exact h.1
      have hi0 : i ≠ 0 := by
        rcases h0 with h | h
        · omega
        · exact h.2
      constructor
      · by_contra hlt
        push_neg at hlt
        have h2 := hall (e - 1) (by omega)
        omega
      · by_contra hlt
        push_neg at hlt
        have h2 := hall (i - 1) (by omega)
        omega
  · rintro ⟨he, hi⟩
    constructor
    · rcases Nat.eq_zero_or_pos c with hc | hc
      · exact Or.inl hc
      · refine Or.inr ⟨by omega, by omega⟩
    · intro j hj
      omega

/-- C10: on a delivering call, the calibration copies are in bounds (no
out-of-bounds read of `cameraExtrinsics` or `cameraIntrinsics`) exactly when
both sequences are at least as long as the camera-matrices sequence truncated
to the view count — the accesses themselves are guarded only by the
camera-matrices length. -/
theorem calibration_guard (st : PState) (src : SourceState) (o : Oracle)
    (img : Image) (tl : List Image)
    (hrel : st.mNumberFramesToProcess ≠ ULLMAX →
            st.mGlobalCounter ≤ st.mNumberFramesToProcess)
    (hopen : src.isOpen = true) (hstill : o.stillOpen = true) (hnf : o.setFails = false)
    (hf : o.frames = img :: tl) (hne : img.isEmpty = false)
    (hch : img.channels = 3 ∨ img.channels = 1) :
    (checkIfRunningAndGetDatum st src o).oobCalib = false ↔
      (min o.cameraMatrices.length o.frames.length ≤ o.cameraExtrinsics.length ∧
       min o.cameraMatrices.length o.frames.length ≤ o.cameraIntrinsics.length) := by
  have hrel2 : ¬(st.mNumberFramesToProcess ≠ ULLMAX ∧
      st.mGlobalCounter > st.mNumberFramesToProcess) := by
    rintro ⟨a, b⟩
    exact absurd (hrel a) (Nat.not_le.mpr b)
  obtain ⟨-, -, -, -, -, -, -, hoob⟩ :=
    call_good_read st src o img tl hrel2 hopen hstill hnf hf hne hch
  have hlen : o.frames.length = tl.length + 1 := by
    rw [hf]
    rfl
  rw [hoob, hlen, Nat.add_sub_cancel, Bool.or_eq_false_iff]
  have h1 : firstViewOob o = false ↔
      (o.cameraMatrices.length = 0 ∨
       (o.cameraExtrinsics.length ≠ 0 ∧ o.cameraIntrinsics.length ≠ 0)) := by
    unfold firstViewOob
    exact bool_guard_head_iff _ _ _
  have h2 : ((List.range tl.length).any fun j => extraViewOob o (j + 1)) = false ↔
      (∀ j, j < tl.length → ¬(j + 1 < o.cameraMatrices.length ∧
        (o.cameraExtrinsics.length ≤ j + 1 ∨ o.cameraIntrinsics.length ≤ j + 1))) := by
    rw [List.any_eq_false]
    constructor
    · intro h j hj
      have := h j (List.mem_range.mpr hj)
      simpa [extraViewOob] using this
    · intro h j hj
      have := h j (List.mem_range.mp hj)
      simpa [extraViewOob] using this
  rw [h1, h2, calib_guard_arith]

/-- Witness for `calibration_guard`: two calibration triples for three views
are in bounds exactly because only two camera matrices are present. -/
theorem calibration_guard_witness :
    (checkIfRunningAndGetDatum stFresh srcOpen7 oThreeView).oobCalib = false ↔
      (min oThreeView.cameraMatrices.length oThreeView.frames.length ≤
        oThreeView.cameraExtrinsics.length ∧
       min oThreeView.cameraMatrices.length oThreeView.frames.length ≤
        oThreeView.cameraIntrinsics.length) :=
  calibration_guard stFresh srcOpen7 oThreeView bgrImg [greyImg, bgrImg]
    (by decide) rfl rfl rfl rfl rfl (Or.inl rfl)

set_option maxHeartbeats 1600000 in
/-- A delivering call bumps the counter by one (mod `2 ^ 64`). -/
lemma call_counter_delivered (st : PState) (src : SourceState) (o : Oracle) :
    (checkIfRunningAndGetDatum st src o).delivered = true →
    (checkIfRunningAndGetDatum st src o).state.mGlobalCounter =
      (st.mGlobalCounter + 1) % 2 ^ 64 := by
  unfold checkIfRunningAndGetDatum
  simp only []
  repeat' split
  all_goals intro h
  all_goals first
  | rfl
  | simp_all

set_option maxHeartbeats 1600000 in
/-- A non-delivering call leaves the counter unchanged. -/
lemma call_counter_undelivered (st : PState) (src : SourceState) (o : Oracle) :
    (checkIfRunningAndGetDatum st src o).delivered = false →
    (checkIfRunningAndGetDatum st src o).state.mGlobalCounter = st.mGlobalCounter := by
  unfold checkIfRunningAndGetDatum
  simp only []
  repeat' split
  all_goals intro h
  all_goals first
  | rfl
  | simp_all

set_option maxHeartbeats 1600000 in
/-- The configured range size never changes across calls. -/
lemma call_frames_to_process_eq (st : PState) (src : SourceState) (o : Oracle) :
    (checkIfRunningAndGetDatum st src o).state.mNumberFramesToProcess =
      st.mNumberFramesToProcess := by
  unfold checkIfRunningAndGetDatum
  simp only []
  repeat' split
  all_goals rfl

/-- A delivering call implies the release condition did not hold at entry:
under a bounded range, the counter was still at most the range size. -/
lemma call_delivered_release (st : PState) (src : SourceState) (o : Oracle)
    (hdel : (checkIfRunningAndGetDatum st src o).delivered = true) :
    ¬(st.mNumberFramesToProcess ≠ ULLMAX ∧
      st.mGlobalCounter > st.mNumberFramesToProcess) := by
  intro hrel
  unfold checkIfRunningAndGetDatum at hdel
  rw [if_pos hrel] at hdel
  simp at hdel

lemma applySeekWrite_fields (st : PState) (w : Option SeekState) :
    (applySeekWrite st w).mGlobalCounter = st.mGlobalCounter ∧
    (applySeekWrite st w).mNumberFramesToProcess = st.mNumberFramesToProcess := by
  unfold applySeekWrite
  split <;> exact ⟨rfl, rfl⟩

/-- Main induction for the range bound: under a bounded range, the delivered
count plus the entry counter never exceeds the range size plus one. -/
lemma runCalls_counter_bound (os : List Oracle) (st : PState) (src : SourceState)
    (hb : st.mNumberFramesToProcess < ULLMAX)
    (hc : st.mGlobalCounter ≤ st.mNumberFramesToProcess + 1) :
    (runCalls st src os).2.2 + st.mGlobalCounter ≤ st.mNumberFramesToProcess + 1 := by
  induction os generalizing st src with
  | nil =>
      simpa [runCalls] using hc
  | cons o os ih =>
      simp only [runCalls]
      obtain ⟨hw1, hw2⟩ := applySeekWrite_fields st o.seekWrite
      have hN := call_frames_to_process_eq (applySeekWrite st o.seekWrite) src o
      rw [hw2] at hN
      cases hdel : (checkIfRunningAndGetDatum (applySeekWrite st o.seekWrite) src o).delivered with
      | false =>
          have hcc := call_counter_undelivered (applySeekWrite st o.seekWrite) src o hdel
          rw [hw1] at hcc
          have hrec := ih (checkIfRunningAndGetDatum (applySeekWrite st o.seekWrite) src o).state
            (checkIfRunningAndGetDatum (applySeekWrite st o.seekWrite) src o).src
            (by rw [hN]; exact hb) (by rw [hcc, hN]; exact hc)
          rw [hN, hcc] at hrec
          simp only [Bool.false_eq_true, if_false]
          omega
      | true =>
          have hrel := call_delivered_release (applySeekWrite st o.seekWrite) src o hdel
          have hle : st.mGlobalCounter ≤ st.mNumberFramesToProcess := by
            by_contra hgt
            exact hrel ⟨by rw [hw2]; omega, by rw [hw1, hw2]; omega⟩
          have hcc := call_counter_delivered (applySeekWrite st o.seekWrite) src o hdel
          rw [hw1] at hcc
          have hmod : (st.mGlobalCounter + 1) % 2 ^ 64 = st.mGlobalCounter + 1 := by
            apply Nat.mod_eq_of_lt
            have hU : ULLMAX = 2 ^ 64 - 1 := rfl
            omega
          rw [hmod] at hcc
          have hrec := ih (checkIfRunningAndGetDatum (applySeekWrite st o.seekWrite) src o).state
            (checkIfRunningAndGetDatum (applySeekWrite st o.seekWrite) src o).src
            (by rw [hN]; exact hb) (by rw [hcc, hN]; omega)
          rw [hN, hcc] at hrec
          simp only [if_true]
          omega

lemma mkDatumProducer_state (producerType : ProducerType) (src : SourceState)
    (frameFirst frameLast : Nat) (videoSeek : Option SeekState) (ctorSetFails : Bool) :
    (mkDatumProducer producerType src frameFirst frameLast videoSeek ctorSetFails).state =
      { mNumberFramesToProcess :=
          if frameLast ≠ ULLMAX then (frameLast + 2 ^ 64 - frameFirst) % 2 ^ 64 else frameLast,
        mGlobalCounter := 0, mNumberConsecutiveEmptyFrames := 0,
        spVideoSeek := videoSeek } := by
  unfold mkDatumProducer
  repeat' split
  all_goals rfl

/-- C1 as stated is false: with the bounded range `[5, 5)` (size 0), one call
on an open source still delivers a batch, because the release check
`mGlobalCounter > mNumberFramesToProcess` is strict — so the delivered count
exceeds `b - a`. -/
theorem range_bound_cex :
    (runCalls (mkDatumProducer ProducerType.video srcOpen7 5 5 none false).state
      (mkDatumProducer ProducerType.video srcOpen7 5 5 none false).src [oOneFrame]).2.2
      = 1 ∧
    ¬((runCalls (mkDatumProducer ProducerType.video srcOpen7 5 5 none false).state
      (mkDatumProducer ProducerType.video srcOpen7 5 5 none false).src [oOneFrame]).2.2
      ≤ 5 - 5) := by
  refine ⟨by decide, by decide⟩

/-- C1 amended: for a bounded configured range `[a, b)`, across any sequence
of calls the number of successfully delivered batches never exceeds
`b - a + 1` (the strict release check admits exactly one batch beyond the
range size, as the counterexample shows; `b - a` itself is not an upper
bound). -/
theorem range_bound_plus_one (producerType : ProducerType) (src : SourceState)
    (frameFirst frameLast : Nat) (videoSeek : Option SeekState) (ctorSetFails : Bool)
    (os : List Oracle)
    (h1 : frameFirst ≤ frameLast) (h2 : frameLast < ULLMAX) :
    (runCalls (mkDatumProducer producerType src frameFirst frameLast videoSeek
        ctorSetFails).state
      (mkDatumProducer producerType src frameFirst frameLast videoSeek ctorSetFails).src
      os).2.2 ≤ frameLast - frameFirst + 1 := by
  have hst := mkDatumProducer_state producerType src frameFirst frameLast videoSeek ctorSetFails
  have hne : frameLast ≠ ULLMAX := Nat.ne_of_lt h2
  have hm : (frameLast + 2 ^ 64 - frameFirst) % 2 ^ 64 = frameLast - frameFirst := by
    have hsplit : frameLast + 2 ^ 64 - frameFirst = (frameLast - frameFirst) + 2 ^ 64 := by
      omega
    rw [hsplit, Nat.add_mod_right]
    apply Nat.mod_eq_of_lt
    have hU : ULLMAX = 2 ^ 64 - 1 := rfl
    omega
  rw [if_pos hne, hm] at hst
  have hU : ULLMAX = 2 ^ 64 - 1 := rfl
  have hbound := runCalls_counter_bound os
    (mkDatumProducer producerType src frameFirst frameLast videoSeek ctorSetFails).state
    (mkDatumProducer producerType src frameFirst frameLast videoSeek ctorSetFails).src
    (by rw [hst]; simpa using by omega)
    (by rw [hst]; simp)
  rw [hst] at hbound ⊢
  simp only at hbound
  omega

/-- Witness for `range_bound_plus_one` on the range `[0, 3)` with one call. -/
theorem range_bound_plus_one_witness :
    (runCalls (mkDatumProducer ProducerType.video srcOpen7 0 3 none false).state
      (mkDatumProducer ProducerType.video srcOpen7 0 3 none false).src [oOneFrame]).2.2
      ≤ 3 - 0 + 1 :=
  range_bound_plus_one ProducerType.video srcOpen7 0 3 none false [oOneFrame]
    (by decide) (by decide)

end DatumProducerModel
